import Mathlib

/-!
Shallow embedding of `model_lightning.py` (mschrimpf/IT-fitting).

The Python module defines a Lightning wrapper `Model_Lightning` with a
multi-task loss router (`training_step` / `validation_step` / `test_step`),
optimizer configuration (`configure_optimizers`), a string-keyed table of
neural similarity losses (`neural_losses`), a periodic checkpoint callback
(`CheckpointEveryNSteps.on_batch_end`) and a forward-hook recorder (`Hook`).

Python exceptions (IndexError from `loss_weights[i]`, KeyError from the
`neural_losses` dict lookup, TypeError/NameError in `validation_step`) are
modelled as `none` of an `Option` result.  Tensor-level computations
(`classification`, `similarity`) are kept abstract as function parameters:
the router's behaviour does not depend on their internals.  Float scalars
are modelled as `ℚ`.
-/

set_option autoImplicit false

universe u

/-- A batch sub-element's source tag as inspected by the router:
`batch_[0][0]` is either a Python string (the usual case, e.g. `'ImageNet'`)
or a Python list of strings (what the literal `['NeuralData']` on line 79
compares against). -/
inductive Tag where
  | str (s : String)
  | list (l : List String)
  deriving DecidableEq, Repr

/-- Predicate `Tag.isStr t` holds when the tag is a plain string (the shape that the
dataset collaborator actually supplies). -/
def Tag.isStr : Tag → Bool
  | Tag.str _ => true
  | Tag.list _ => false

/-- One sub-element of a training batch: `batch_[0][0]` is `tag`,
`batch_[1]` is the domain payload (image/label or image/target pair),
kept abstract as `payload : α`. -/
structure SubBatch (α : Type u) where
  tag : Tag
  payload : α
  deriving DecidableEq, Repr

/-- The loop body of `Model_Lightning.training_step` (lines 71-84):
`for i, batch_ in enumerate(batch)` starting at index `i`, building the
`losses` list.  `batch` is the full step batch (the `elif` branch reads
`batch[1]`, not `batch_[1]`); `rest` is the suffix still to process.
`loss_weights[i]` out of range is a Python IndexError, modelled as `none`;
likewise `batch[1]` when the batch has fewer than two elements.
Unrecognized tags fall through: no loss term is appended. -/
def trainLossList {α : Type u} (loss_weights : List ℚ) (classification : α → ℚ)
    (similarity : SubBatch α → ℚ) (batch : List (SubBatch α)) :
    Nat → List (SubBatch α) → Option (List ℚ)
  | _, [] => some []
  | i, b :: rest =>
    if b.tag = Tag.str "ImageNet" then
      match loss_weights[i]?, trainLossList loss_weights classification similarity batch (i+1) rest with
      | some w, some ls => some (w * classification b.payload :: ls)
      | _, _ => none
    else if b.tag = Tag.list ["NeuralData"] then
      match loss_weights[i]?, batch[1]?, trainLossList loss_weights classification similarity batch (i+1) rest with
      | some w, some b1, some ls => some (w * similarity b1 :: ls)
      | _, _, _ => none
    else
      trainLossList loss_weights classification similarity batch (i+1) rest

/-- Function `Model_Lightning.training_step` (lines 71-84): route every sub-batch,
then `return sum(losses)` (`0` for the empty list). -/
def training_step {α : Type u} (loss_weights : List ℚ) (classification : α → ℚ)
    (similarity : SubBatch α → ℚ) (batch : List (SubBatch α)) : Option ℚ :=
  (trainLossList loss_weights classification similarity batch 0 batch).map List.sum

/-- The per-task loss that `training_step` multiplies by `loss_weights[i]`:
a string-tagged (`'ImageNet'`) sub-batch contributes
`classification(batch_[1])`; a list-tagged (`['NeuralData']`) sub-batch
contributes `similarity(batch[1])` — the second element of the whole batch,
as written on line 81.  The `0` default is never reached under the
hypotheses of the theorems that use this definition. -/
def taskLoss {α : Type u} (classification : α → ℚ) (similarity : SubBatch α → ℚ)
    (batch : List (SubBatch α)) (b : SubBatch α) : ℚ :=
  match b.tag with
  | Tag.str _ => classification b.payload
  | Tag.list _ =>
    match batch[1]? with
    | some b1 => similarity b1
    | none => 0

/-- The classification-only loss list: what the router produces when the
`['NeuralData']` branch never fires, i.e. only `'ImageNet'`-tagged
sub-batches contribute, each weighted by its position in the whole batch. -/
def imagenetLossList {α : Type u} (loss_weights : List ℚ) (classification : α → ℚ) :
    Nat → List (SubBatch α) → Option (List ℚ)
  | _, [] => some []
  | i, b :: rest =>
    if b.tag = Tag.str "ImageNet" then
      match loss_weights[i]?, imagenetLossList loss_weights classification (i+1) rest with
      | some w, some ls => some (w * classification b.payload :: ls)
      | _, _ => none
    else
      imagenetLossList loss_weights classification (i+1) rest

/-- The loop body of `Model_Lightning.validation_step` (lines 86-99).  The
`'ImageNet'` branch evaluates `batch['ImageNet']` — a string index into a
list, a Python TypeError; the `['NeuralData']` branch evaluates
`batch[region]` where `region` is an unbound name, a Python NameError.
Both are modelled as `none`.  Unrecognized tags are skipped as in training. -/
def valLossList {α : Type u} : List (SubBatch α) → Option (List ℚ)
  | [] => some []
  | b :: rest =>
    if b.tag = Tag.str "ImageNet" then none
    else if b.tag = Tag.list ["NeuralData"] then none
    else valLossList rest

/-- Function `Model_Lightning.validation_step` (lines 86-99); `mode` defaults to
`"val"` at the call sites modelled here.  The metric names the Python code
would emit are `mode`-prefixed, but every branch that would log first
raises, so the embedding returns only the summed loss (or `none`). -/
def validation_step {α : Type u} (batch : List (SubBatch α)) (batch_idx : Nat)
    (dataloader_idx : Option Nat) (mode : String) : Option ℚ :=
  (valLossList batch).map List.sum

/-- Function `Model_Lightning.test_step` (lines 101-102): delegate to
`validation_step` with `mode='val'`. -/
def test_step {α : Type u} (batch : List (SubBatch α)) (batch_idx : Nat)
    (dataloader_idx : Option Nat) : Option ℚ :=
  validation_step batch batch_idx dataloader_idx "val"

/-- The two entries of the class-level `Model_Lightning.neural_losses`
table (lines 32-35). -/
inductive NeuralLoss where
  | CenteredKernelAlignment
  | LogCenteredKernelAlignment
  deriving DecidableEq, Repr

/-- Lookup `Model_Lightning.neural_losses[k]`: the string-keyed dict lookup.
A key other than `'CKA'` / `'logCKA'` is a Python KeyError (`none`). -/
def neural_losses (k : String) : Option NeuralLoss :=
  if k = "CKA" then some NeuralLoss.CenteredKernelAlignment
  else if k = "logCKA" then some NeuralLoss.LogCenteredKernelAlignment
  else none

/-- The hyperparameter namespace consumed by `Model_Lightning`
(`add_model_specific_args`, lines 175-201, plus `verbose`).  Immutable
after construction. -/
structure HParams where
  arch : String
  pretrained : Bool
  regions : List String
  neural_loss : String
  loss_weights : List ℚ
  lr : ℚ
  weight_decay : ℚ
  step_size : Nat
  momentum : ℚ
  optim : String
  scheduler : String
  record_time : Bool
  verbose : Bool
  deriving DecidableEq, Repr

/-- The state `Model_Lightning.__init__` (lines 37-53) establishes, with
the network itself and the region hooks abstracted away. -/
structure Model_Lightning where
  loss_weights : List ℚ
  record_time : Bool
  neural_loss : NeuralLoss
  deriving DecidableEq, Repr

/-- Constructor `Model_Lightning.__init__` (lines 37-53): copies `record_time` and
`loss_weights` from the hyperparameters and instantiates
`self.neural_losses[hparams.neural_loss]()`; an unknown loss kind raises
KeyError during construction (`none`). -/
def Model_Lightning.init (h : HParams) : Option Model_Lightning :=
  match neural_losses h.neural_loss with
  | some nl => some ⟨h.loss_weights, h.record_time, nl⟩
  | none => none

/-- The SGD optimizer built on lines 134-140: all parameters handed to
`self.parameters()` plus the hyperparameters actually passed to
`optim.SGD`. -/
structure SGDOptimizer (P : Type u) where
  params : List P
  lr : ℚ
  weight_decay : ℚ
  momentum : ℚ
  nesterov : Bool
  deriving DecidableEq, Repr

/-- The `lr_scheduler.StepLR` built on lines 142-144: only `step_size` is
passed; `gamma` keeps the library default `0.1`. -/
structure StepLR where
  step_size : Nat
  gamma : ℚ
  deriving DecidableEq, Repr

/-- The scheduler dict of lines 141-146: the `StepLR` instance together
with the `'interval'` entry. -/
structure SchedulerEntry where
  scheduler : StepLR
  interval : String
  deriving DecidableEq, Repr

/-- Function `Model_Lightning.configure_optimizers` (lines 130-148): one SGD
optimizer over all of `self.parameters()` with `momentum=0.9`,
`nesterov=True`, and the configured `lr` / `weight_decay`; one epoch-level
`StepLR` schedule with the configured `step_size`. -/
def configure_optimizers {P : Type u} (params : List P) (h : HParams) :
    List (SGDOptimizer P) × List SchedulerEntry :=
  ([⟨params, h.lr, h.weight_decay, 9/10, true⟩],
   [⟨⟨h.step_size, 1/10⟩, "epoch"⟩])

/-- Condition under which `CheckpointEveryNSteps.on_batch_end` fires (line 233):
`global_step % self.save_step_frequency == 0`. -/
def shouldCheckpoint (save_step_frequency global_step : Nat) : Bool :=
  global_step % save_step_frequency == 0

/-- Callback `CheckpointEveryNSteps.on_batch_end` (lines 229-239): when the step
count is on the cadence, save a checkpoint under either the collaborating
checkpoint callback's filename or the synthesized
`<prefix>_<epoch>_<step>.ckpt`; otherwise do nothing.  The returned value
is the filename persisted (`none` = no checkpoint this step). -/
def on_batch_end (save_step_frequency : Nat) (pfx : String)
    (use_modelcheckpoint_filename : Bool) (checkpoint_filename : String)
    (current_epoch global_step : Nat) : Option String :=
  if shouldCheckpoint save_step_frequency global_step then
    some (if use_modelcheckpoint_filename then checkpoint_filename
          else pfx ++ "_" ++ toString current_epoch ++ "_" ++ toString global_step ++ ".ckpt")
  else none

/-- The state of a `Hook` (lines 242-252): `self.output`, initialized to
`None`; the registration on the module is the framework's side and carries
no state of its own beyond the attachment direction. -/
structure Hook (α : Type u) where
  backward : Bool
  output : Option α
  deriving DecidableEq, Repr

/-- Constructor `Hook.__init__` (lines 243-249): register on the module (forward or
backward per the flag) and set `self.output = None`. -/
def Hook.init (α : Type u) (backward : Bool) : Hook α :=
  ⟨backward, none⟩

/-- Callback `Hook.hook_fn` (lines 251-252): called by the framework on each firing
of the attached module; stores `output`, overwriting any prior value.  The
`module` and `input` arguments are ignored by the Python body. -/
def Hook.hook_fn {α μ ι : Type u} (h : Hook α) (module : μ) (input : ι) (out : α) : Hook α :=
  ⟨h.backward, some out⟩

/-- Operation `Read()` of the spec's Activation Tap: the stored `self.output`
(`none` is the "no value yet" sentinel). -/
def Hook.read {α : Type u} (h : Hook α) : Option α :=
  h.output

/-! ## Helper lemmas about the training-step router -/

/-- A string-tagged sub-batch's per-task loss is its own classification loss. -/
lemma taskLoss_of_str {α : Type u} (c : α → ℚ) (s : SubBatch α → ℚ)
    (batch : List (SubBatch α)) (b : SubBatch α) (t : String) (h : b.tag = Tag.str t) :
    taskLoss c s batch b = c b.payload := by
  unfold taskLoss
  rw [h]

/-- A list-tagged sub-batch's per-task loss is the similarity loss of `batch[1]`. -/
lemma taskLoss_of_list {α : Type u} (c : α → ℚ) (s : SubBatch α → ℚ)
    (batch : List (SubBatch α)) (b b1 : SubBatch α) (l : List String)
    (h : b.tag = Tag.list l) (hb : batch[1]? = some b1) :
    taskLoss c s batch b = s b1 := by
  unfold taskLoss
  rw [h, hb]

/-- When every remaining sub-batch carries a recognized tag, the weight
vector is long enough, and a list-tagged sub-batch implies the batch has a
second element, the router's loss list is exactly the positionally weighted
per-task losses. -/
lemma trainLossList_spec {α : Type u} (w : List ℚ) (c : α → ℚ) (s : SubBatch α → ℚ)
    (batch : List (SubBatch α)) :
    ∀ (rest : List (SubBatch α)) (i : Nat),
      (∀ b ∈ rest, b.tag = Tag.str "ImageNet" ∨ b.tag = Tag.list ["NeuralData"]) →
      i + rest.length ≤ w.length →
      (∀ b ∈ rest, b.tag = Tag.list ["NeuralData"] → 2 ≤ batch.length) →
      trainLossList w c s batch i rest =
        some (List.zipWith (fun wi b => wi * taskLoss c s batch b) (w.drop i) rest)
  | [], i, _, _, _ => by simp [trainLossList]
  | b :: rest, i, hrec, hlen, hpair => by
    have hi : i < w.length := by
      have := hlen
      simp at this
      omega
    have hIH := trainLossList_spec w c s batch rest (i+1)
      (fun x hx => hrec x (List.mem_cons_of_mem _ hx))
      (by simp at hlen ⊢; omega)
      (fun x hx => hpair x (List.mem_cons_of_mem _ hx))
    rcases hrec b (List.mem_cons_self _ _) with h | h
    · rw [trainLossList, if_pos h, List.getElem?_eq_getElem hi, hIH,
        List.drop_eq_getElem_cons hi, List.zipWith_cons_cons,
        taskLoss_of_str c s batch b "ImageNet" h]
    · have h2 : 2 ≤ batch.length := hpair b (List.mem_cons_self _ _) h
      have hb1 : batch[1]? = some (batch.get ⟨1, by omega⟩) := by
        rw [List.getElem?_eq_getElem (by omega)]
        simp
      have hne : ¬ (b.tag = Tag.str "ImageNet") := by
        rw [h]; intro hc; cases hc
      rw [trainLossList, if_neg hne, if_pos h, List.getElem?_eq_getElem hi, hb1, hIH,
        List.drop_eq_getElem_cons hi, List.zipWith_cons_cons,
        taskLoss_of_list c s batch b _ _ h hb1]

/-! ## Claims -/

/-- C1: on a batch whose sub-batches are all recognized by the router (and
with enough configured weights, and — for the `['NeuralData']` branch,
which reads `batch[1]` — a batch of at least two elements), `training_step`
returns the weighted sum of the per-task losses, weight `i` multiplying the
loss of sub-batch `i`; in particular two active tasks with weights
`[2, 1]` and task losses `[3, 4]` combine to `10`. -/
theorem claim_C1 {α : Type u} (w : List ℚ) (c : α → ℚ) (s : SubBatch α → ℚ)
    (batch : List (SubBatch α))
    (hrec : ∀ b ∈ batch, b.tag = Tag.str "ImageNet" ∨ b.tag = Tag.list ["NeuralData"])
    (hlen : batch.length ≤ w.length)
    (hpair : ∀ b ∈ batch, b.tag = Tag.list ["NeuralData"] → 2 ≤ batch.length) :
    training_step w c s batch =
      some (List.zipWith (fun wi b => wi * taskLoss c s batch b) w batch).sum
    ∧ training_step [(2:ℚ), 1] id SubBatch.payload
        [⟨Tag.str "ImageNet", (3:ℚ)⟩, ⟨Tag.list ["NeuralData"], 4⟩] = some 10 := by
  constructor
  · rw [training_step, trainLossList_spec w c s batch batch 0 hrec (by omega) hpair]
    simp
  · norm_num [training_step, trainLossList]

/-- C1 witness: the two-task instance — an `'ImageNet'` sub-batch with
classification loss `3` and a `['NeuralData']` sub-batch with similarity
loss `4`, weights `[2, 1]` — combines to `10`. -/
theorem claim_C1_witness :
    (∀ b ∈ ([⟨Tag.str "ImageNet", (3:ℚ)⟩, ⟨Tag.list ["NeuralData"], 4⟩] : List (SubBatch ℚ)),
      b.tag = Tag.str "ImageNet" ∨ b.tag = Tag.list ["NeuralData"])
    ∧ training_step [(2:ℚ), 1] id SubBatch.payload
        [⟨Tag.str "ImageNet", (3:ℚ)⟩, ⟨Tag.list ["NeuralData"], 4⟩] = some 10 :=
  ⟨by decide,
    (claim_C1 [(2:ℚ), 1] id SubBatch.payload
      [⟨Tag.str "ImageNet", (3:ℚ)⟩, ⟨Tag.list ["NeuralData"], 4⟩]
      (by decide) (by decide) (by decide)).2⟩

/-- C4: a sub-batch whose tag matches neither `'ImageNet'` nor the list
`['NeuralData']` is silently skipped by `training_step`: the router
processes the remaining sub-batches exactly as if the unrecognized one
were absent (no loss term, no error from it), the position index still
advancing past it; in particular for a head-position unrecognized
sub-batch the whole step reduces to routing the tail from index 1. -/
theorem claim_C4 {α : Type u} (w : List ℚ) (c : α → ℚ) (s : SubBatch α → ℚ)
    (batch : List (SubBatch α)) (i : Nat) (b : SubBatch α) (rest : List (SubBatch α))
    (h1 : b.tag ≠ Tag.str "ImageNet") (h2 : b.tag ≠ Tag.list ["NeuralData"]) :
    trainLossList w c s batch i (b :: rest) = trainLossList w c s batch (i+1) rest
    ∧ training_step w c s (b :: rest) =
        (trainLossList w c s (b :: rest) 1 rest).map List.sum := by
  have hskip : ∀ (batch' : List (SubBatch α)) (j : Nat),
      trainLossList w c s batch' j (b :: rest) = trainLossList w c s batch' (j+1) rest := by
    intro batch' j
    rw [trainLossList, if_neg h1, if_neg h2]
  exact ⟨hskip batch i, by rw [training_step, hskip (b :: rest) 0]⟩

/-- C4 witness: a batch `[⟨"Other", 5⟩, ⟨"ImageNet", 4⟩]` with weights
`[2, 1]`: the unrecognized head contributes nothing and raises nothing, and
the `'ImageNet'` sub-batch at position 1 gets weight `1`, so the step loss
is `4`. -/
theorem claim_C4_witness :
    training_step [(2:ℚ), 1] id SubBatch.payload
      [⟨Tag.str "Other", (5:ℚ)⟩, ⟨Tag.str "ImageNet", 4⟩] = some 4 := by
  have h := claim_C4 [(2:ℚ), 1] id SubBatch.payload
    [⟨Tag.str "Other", (5:ℚ)⟩, ⟨Tag.str "ImageNet", 4⟩] 0
    ⟨Tag.str "Other", (5:ℚ)⟩ [⟨Tag.str "ImageNet", 4⟩] (by decide) (by decide)
  rw [h.2]
  norm_num [trainLossList]

/-- When some recognized sub-batch sits at relative position `j` and the
weight vector ends at or before absolute position `i + j`, the router's
`loss_weights[i+j]` lookup fails and the failure propagates outward:
the whole loss list is `none` (a Python IndexError). -/
lemma trainLossList_none_of_short_weights {α : Type u} (w : List ℚ) (c : α → ℚ)
    (s : SubBatch α → ℚ) (batch : List (SubBatch α)) :
    ∀ (rest : List (SubBatch α)) (i j : Nat) (b : SubBatch α),
      rest[j]? = some b →
      (b.tag = Tag.str "ImageNet" ∨ b.tag = Tag.list ["NeuralData"]) →
      w.length ≤ i + j →
      trainLossList w c s batch i rest = none
  | [], i, j, b, hj, _, _ => by simp at hj
  | b' :: rest, i, 0, b, hj, hrec, hlen => by
    have hb : b' = b := by simpa using hj
    subst hb
    have hw : w[i]? = none := by
      rw [List.getElem?_eq_none]
      omega
    rcases hrec with h | h
    · rw [trainLossList, if_pos h, hw]
    · have hne : ¬ (b'.tag = Tag.str "ImageNet") := by
        rw [h]; intro hc; cases hc
      rw [trainLossList, if_neg hne, if_pos h, hw]
  | b' :: rest, i, j+1, b, hj, hrec, hlen => by
    have hj' : rest[j]? = some b := by simpa using hj
    have hIH := trainLossList_none_of_short_weights w c s batch rest (i+1) j b hj' hrec
      (by omega)
    rw [trainLossList]
    split
    · rw [hIH]
      rcases w[i]? with _ | wv <;> rfl
    · split
      · rw [hIH]
        rcases w[i]? with _ | wv <;> rcases batch[1]? with _ | b1 <;> rfl
      · exact hIH

/-- C5 counterexample: three configured weights and two active
(`'ImageNet'`-tagged) tasks do NOT raise: `training_step` returns the
ordinary combined loss `1*3 + 1*4 = 7`, silently ignoring the third
weight. -/
theorem claim_C5_counterexample :
    training_step [(1:ℚ), 1, 1] id SubBatch.payload
      [⟨Tag.str "ImageNet", (3:ℚ)⟩, ⟨Tag.str "ImageNet", 4⟩] = some 7
    ∧ training_step [(1:ℚ), 1, 1] id SubBatch.payload
      [⟨Tag.str "ImageNet", (3:ℚ)⟩, ⟨Tag.str "ImageNet", 4⟩] ≠ none := by
  have h : training_step [(1:ℚ), 1, 1] id SubBatch.payload
      [⟨Tag.str "ImageNet", (3:ℚ)⟩, ⟨Tag.str "ImageNet", 4⟩] = some 7 := by
    norm_num [training_step, trainLossList]
  exact ⟨h, by rw [h]; simp⟩

/-- C5 (amended): a weight vector that is too short is a fatal error at
step time — whenever a recognized sub-batch sits at a position `i` with
`w.length ≤ i`, `training_step` fails with an IndexError from
`loss_weights[i]` (modelled as `none`); a weight vector longer than the
number of sub-batches, by contrast, raises nothing — the extra entries
are silently ignored. -/
theorem claim_C5 {α : Type u} (w : List ℚ) (c : α → ℚ) (s : SubBatch α → ℚ)
    (batch : List (SubBatch α)) (i : Nat) (b : SubBatch α)
    (hi : batch[i]? = some b)
    (hrec : b.tag = Tag.str "ImageNet" ∨ b.tag = Tag.list ["NeuralData"])
    (hlen : w.length ≤ i) :
    training_step w c s batch = none := by
  rw [training_step,
    trainLossList_none_of_short_weights w c s batch batch 0 i b (by simpa using hi) hrec
      (by omega)]
  rfl

/-- C5 witness: a single `'ImageNet'` sub-batch with an empty weight
vector makes `training_step` fail. -/
theorem claim_C5_witness :
    training_step ([] : List ℚ) id SubBatch.payload
      [⟨Tag.str "ImageNet", (3:ℚ)⟩] = none :=
  claim_C5 [] id SubBatch.payload [⟨Tag.str "ImageNet", (3:ℚ)⟩] 0
    ⟨Tag.str "ImageNet", (3:ℚ)⟩ (by decide) (by decide) (by decide)

/-- With only string tags in the remaining sub-batches, the router's loss
list coincides with the classification-only loss list: the
`batch_[0][0] == ['NeuralData']` comparison never succeeds. -/
lemma trainLossList_of_str_tags {α : Type u} (w : List ℚ) (c : α → ℚ)
    (s : SubBatch α → ℚ) (batch : List (SubBatch α)) :
    ∀ (rest : List (SubBatch α)) (i : Nat),
      (∀ b ∈ rest, b.tag.isStr = true) →
      trainLossList w c s batch i rest = imagenetLossList w c i rest
  | [], i, _ => by simp [trainLossList, imagenetLossList]
  | b :: rest, i, hstr => by
    have hIH := trainLossList_of_str_tags w c s batch rest (i+1)
      (fun x hx => hstr x (List.mem_cons_of_mem _ hx))
    have hlist : ¬ (b.tag = Tag.list ["NeuralData"]) := by
      intro hc
      have := hstr b (List.mem_cons_self _ _)
      rw [hc] at this
      cases this
    rw [trainLossList, imagenetLossList]
    by_cases h : b.tag = Tag.str "ImageNet"
    · rw [if_pos h, if_pos h, hIH]
    · rw [if_neg h, if_neg h, if_neg hlist, hIH]

/-- C9: when every sub-batch's source tag is a string (as the dataset
supplies them), the `['NeuralData']` guard on line 79 never fires:
`training_step` equals the classification-only routing — the weighted sum
over `'ImageNet'`-tagged sub-batches — and is independent of the
similarity-loss function altogether. -/
theorem claim_C9 {α : Type u} (w : List ℚ) (c : α → ℚ) (s : SubBatch α → ℚ)
    (batch : List (SubBatch α))
    (hstr : ∀ b ∈ batch, b.tag.isStr = true) :
    training_step w c s batch = (imagenetLossList w c 0 batch).map List.sum
    ∧ ∀ s2 : SubBatch α → ℚ, training_step w c s batch = training_step w c s2 batch := by
  have key : ∀ s' : SubBatch α → ℚ,
      training_step w c s' batch = (imagenetLossList w c 0 batch).map List.sum := by
    intro s'
    rw [training_step, trainLossList_of_str_tags w c s' batch batch 0 hstr]
  exact ⟨key s, fun s2 => (key s).trans (key s2).symm⟩

/-- C9 witness: a batch holding an `'ImageNet'` sub-batch (loss `3`,
weight `2`) and a string-tagged `'NeuralData'` sub-batch: the latter is
dropped, so the step loss is `6`, matching the classification-only
routing. -/
theorem claim_C9_witness :
    training_step [(2:ℚ), 5] id SubBatch.payload
      [⟨Tag.str "ImageNet", (3:ℚ)⟩, ⟨Tag.str "NeuralData", 4⟩] =
      (imagenetLossList [(2:ℚ), 5] id 0
        [⟨Tag.str "ImageNet", (3:ℚ)⟩, ⟨Tag.str "NeuralData", 4⟩]).map List.sum :=
  (claim_C9 [(2:ℚ), 5] id SubBatch.payload
    [⟨Tag.str "ImageNet", (3:ℚ)⟩, ⟨Tag.str "NeuralData", 4⟩] (by decide)).1

/-- C2: invoked once per completed step, the periodic checkpoint callback
persists a checkpoint exactly when the global step count is a multiple of
the configured frequency (step 0 included), and over the scripted steps
0..20 with frequency 5 it fires at 0, 5, 10, 15, 20 only. -/
theorem claim_C2 (freq : Nat) (pfx : String) (umf : Bool) (ckname : String)
    (epoch n : Nat) :
    ((on_batch_end freq pfx umf ckname epoch n).isSome = true ↔ freq ∣ n)
    ∧ (List.range 21).filter (shouldCheckpoint 5) = [0, 5, 10, 15, 20] := by
  constructor
  · have hsome : (on_batch_end freq pfx umf ckname epoch n).isSome = shouldCheckpoint freq n := by
      rw [on_batch_end]
      split <;> simp_all
    rw [hsome, shouldCheckpoint]
    simp [Nat.dvd_iff_mod_eq_zero]
  · decide

/-- C3: a fresh `Hook` reads the `None` sentinel; after one firing of the
attached module it reads that firing's output; a second firing overwrites
(never accumulates) the stored value. -/
theorem claim_C3 {α μ ι : Type u} (bw : Bool) (m m2 : μ) (x x2 : ι) (a b : α) :
    (Hook.init α bw).read = none
    ∧ ((Hook.init α bw).hook_fn m x a).read = some a
    ∧ (((Hook.init α bw).hook_fn m x a).hook_fn m2 x2 b).read = some b :=
  ⟨rfl, rfl, rfl⟩

/-- C6: `test_step` returns exactly `validation_step` on the same batch,
batch index and dataloader index with `mode='val'` — the test phase is the
validation code path. -/
theorem claim_C6 {α : Type u} (batch : List (SubBatch α)) (batch_idx : Nat)
    (dataloader_idx : Option Nat) :
    test_step batch batch_idx dataloader_idx =
      validation_step batch batch_idx dataloader_idx "val" :=
  rfl

/-- C7: for every hyperparameter configuration, `configure_optimizers`
returns exactly one optimizer and one schedule: SGD over all supplied
parameters with momentum `9/10`, Nesterov enabled, and the configured
learning rate and weight decay, paired with an epoch-interval `StepLR` of
the configured step size. -/
theorem claim_C7 {P : Type u} (params : List P) (h : HParams) :
    configure_optimizers params h =
      ([⟨params, h.lr, h.weight_decay, 9/10, true⟩], [⟨⟨h.step_size, 1/10⟩, "epoch"⟩])
    ∧ (configure_optimizers params h).1.length = 1
    ∧ (configure_optimizers params h).2.length = 1 :=
  ⟨rfl, rfl, rfl⟩

/-- C8: construction selects the similarity loss from the configured kind:
`'CKA'` yields the linear-scale alignment loss, `'logCKA'` the logarithmic
one, and any other kind fails (KeyError) immediately at construction. -/
theorem claim_C8 (h : HParams) :
    (h.neural_loss = "CKA" →
      Model_Lightning.init h =
        some ⟨h.loss_weights, h.record_time, NeuralLoss.CenteredKernelAlignment⟩)
    ∧ (h.neural_loss = "logCKA" →
      Model_Lightning.init h =
        some ⟨h.loss_weights, h.record_time, NeuralLoss.LogCenteredKernelAlignment⟩)
    ∧ (h.neural_loss ≠ "CKA" → h.neural_loss ≠ "logCKA" →
      Model_Lightning.init h = none) := by
  refine ⟨fun h1 => ?_, fun h1 => ?_, fun h1 h2 => ?_⟩
  · simp [Model_Lightning.init, neural_losses, h1]
  · simp [Model_Lightning.init, neural_losses, h1]
  · simp [Model_Lightning.init, neural_losses, h1, h2]

/-- C8 witness: the unknown kind `'RSA'` makes construction fail. -/
theorem claim_C8_witness :
    Model_Lightning.init ⟨"cornet_s", true, ["IT"], "RSA", [1, 1], 1/10, 1/10000, 50,
      9/10, "sgd", "ExponentialLR", false, false⟩ = none :=
  (claim_C8 ⟨"cornet_s", true, ["IT"], "RSA", [1, 1], 1/10, 1/10000, 50,
      9/10, "sgd", "ExponentialLR", false, false⟩).2.2 (by decide) (by decide)

/-- C10: two hyperparameter configurations agreeing on learning rate,
weight decay and step size — in particular any two differing only in the
`momentum`, `optim` or `scheduler` fields — produce identical optimizer
and schedule settings. -/
theorem claim_C10 {P : Type u} (params : List P) (h1 h2 : HParams)
    (hlr : h1.lr = h2.lr) (hwd : h1.weight_decay = h2.weight_decay)
    (hss : h1.step_size = h2.step_size) :
    configure_optimizers params h1 = configure_optimizers params h2 := by
  simp [configure_optimizers, hlr, hwd, hss]

/-- C10 witness: momentum `9/10` vs `1/2`, `'sgd'` vs `'adam'`,
`'ExponentialLR'` vs `'StepLR'` — same optimizer and schedule out. -/
theorem claim_C10_witness :
    configure_optimizers ([] : List Unit)
      ⟨"cornet_s", true, ["IT"], "CKA", [1, 1], 1/10, 1/10000, 50, 9/10, "sgd",
        "ExponentialLR", false, false⟩ =
    configure_optimizers ([] : List Unit)
      ⟨"cornet_s", true, ["IT"], "CKA", [1, 1], 1/10, 1/10000, 50, 1/2, "adam",
        "StepLR", false, false⟩ :=
  claim_C10 []
    ⟨"cornet_s", true, ["IT"], "CKA", [1, 1], 1/10, 1/10000, 50, 9/10, "sgd",
      "ExponentialLR", false, false⟩
    ⟨"cornet_s", true, ["IT"], "CKA", [1, 1], 1/10, 1/10000, 50, 1/2, "adam",
      "StepLR", false, false⟩
    rfl rfl rfl
